import Mathlib

/-!
Shallow embedding of the SkillnScale backend core: the professional-matching
and price-negotiation-to-booking pipeline.

Modelling conventions
- Entity ids (UUID strings in `app/db/db_models.py`, produced by
  `generate_uuid`) are modelled as natural numbers; the store carries a
  counter `nextId` and every freshly generated id is the current counter
  value, so generated ids are distinct from all ids already below the
  counter (mirroring UUID freshness).
- Timestamps (`created_at`) are modelled by list position: every table is a
  Lean list kept in insertion order, so an SQL `ORDER BY created_at DESC
  LIMIT 1` is the last matching list element and `ORDER BY created_at ASC`
  is the list itself.
- Python floats (prices, scores) are modelled as exact rationals `ℚ`.
- `HTTPException(404/403/400)` become the explicit error values below;
  a database integrity violation raised at flush time (uncaught by the
  endpoint) is `Err.integrityError`.
- Presentation-only response fields (participant display names,
  `match_reason` justification strings, currency-formatted message bodies)
  are omitted: they are string renderings of the data already present.
- Notification dispatch (`send_notification_to_user`) is fire-and-forget
  and does not alter the entities modelled here; it is dropped.
-/

/-- `app/db/db_models.py` `User`: only the columns the modelled core reads. -/
structure User where
  id : Nat
  full_name : String
  role : String
  service_category : Option String
  bio : Option String
  is_active : Bool
deriving Repr, DecidableEq

/-- `app/db/db_models.py` `ServiceRequest` (columns the core reads).
`scheduled_at` is an abstract optional timestamp. -/
structure ServiceRequest where
  id : Nat
  customer_id : Nat
  category_id : String
  title : String
  description : String
  scheduled_at : Option Nat
  status : String
deriving Repr, DecidableEq

/-- `app/db/db_models.py` `ChatRoom`. `status` defaults to `"active"`. -/
structure ChatRoom where
  id : Nat
  request_id : Nat
  customer_id : Nat
  professional_id : Nat
  status : String
deriving Repr, DecidableEq

/-- `app/db/db_models.py` `Message`. -/
structure Message where
  id : Nat
  chat_room_id : Nat
  sender_id : Nat
  content : String
  message_type : String
  proposed_price : Option ℚ
  media_url : Option String
  duration : Option ℚ
deriving Repr, DecidableEq

/-- `app/db/db_models.py` `Booking`. `agreed_price` is optional because the
source passes `last_proposal.proposed_price` (a nullable column) through. -/
structure Booking where
  id : Nat
  request_id : Nat
  customer_id : Nat
  professional_id : Nat
  agreed_price : Option ℚ
  status : String
  scheduled_at : Option Nat
deriving Repr, DecidableEq

/-- `app/db/db_models.py` `Review`. The table declares
`booking_id ... unique=True` (at most one review row per booking). -/
structure Review where
  id : Nat
  booking_id : Nat
  reviewer_id : Nat
  reviewee_id : Nat
  rating : Int
  comment : Option String
deriving Repr, DecidableEq

/-- `app/db/db_models.py` `Availability` (columns the matching engine reads). -/
structure Availability where
  id : Nat
  professional_id : Nat
  is_booked : Bool
deriving Repr, DecidableEq

/-- The entity store: each table as a list in insertion (creation-time)
order, plus the fresh-id counter. -/
structure DB where
  users : List User
  requests : List ServiceRequest
  rooms : List ChatRoom
  messages : List Message
  bookings : List Booking
  reviews : List Review
  avail : List Availability
  nextId : Nat
deriving Repr, DecidableEq

/-- Error taxonomy: `HTTPException` status 404 / 403 / 400, plus an
uncaught database integrity error surfaced at flush. -/
inductive Err where
  | notFound (detail : String)
  | forbidden (detail : String)
  | badRequest (detail : String)
  | integrityError (detail : String)
deriving Repr, DecidableEq

/-- `SELECT ... WHERE id == x` + `scalar_one_or_none` on each table. -/
def findRequest (db : DB) (rid : Nat) : Option ServiceRequest :=
  db.requests.find? (fun q => q.id == rid)

def findRoom (db : DB) (rid : Nat) : Option ChatRoom :=
  db.rooms.find? (fun r => r.id == rid)

def findBooking (db : DB) (bid : Nat) : Option Booking :=
  db.bookings.find? (fun b => b.id == bid)

/-- Extract the payload of a successful endpoint call. -/
def okVal {α : Type} : Except Err α → Option α
  | .ok a => some a
  | .error _ => none

-- ─── Chat endpoints (`app/api/endpoints/chat.py`) ────────────────────

/-- Request body `ChatRoomCreate` (`app/models/chat.py`). -/
structure ChatRoomCreate where
  request_id : Nat
  professional_id : Nat
deriving Repr, DecidableEq

/-- `create_chat_room` (`app/api/endpoints/chat.py` lines 21-93).
Verifies the request exists; if a room with the same
(request, customer, professional) triple exists it is returned unchanged
(no status filter in the query), otherwise a new active room plus one
system message announcing the request title are inserted. -/
def create_chat_room (db : DB) (current_user : User) (room_in : ChatRoomCreate) :
    Except Err (ChatRoom × DB) :=
  match findRequest db room_in.request_id with
  | none => .error (.notFound "Service request not found")
  | some service_request =>
    match db.rooms.find? (fun r =>
        r.request_id == room_in.request_id &&
        r.customer_id == current_user.id &&
        r.professional_id == room_in.professional_id) with
    | some existing_room => .ok (existing_room, db)
    | none =>
      let room : ChatRoom :=
        { id := db.nextId, request_id := room_in.request_id,
          customer_id := current_user.id,
          professional_id := room_in.professional_id, status := "active" }
      let system_msg : Message :=
        { id := db.nextId + 1, chat_room_id := room.id,
          sender_id := current_user.id,
          content := "Chat started for: " ++ service_request.title,
          message_type := "system", proposed_price := none,
          media_url := none, duration := none }
      .ok (room, { db with
        rooms := db.rooms ++ [room],
        messages := db.messages ++ [system_msg],
        nextId := db.nextId + 2 })

/-- Request body `MessageCreate` (`app/models/chat.py` lines 42-47).
`message_type` carries one of the seven `MessageType` enum literals
(pydantic rejects anything else before the endpoint runs);
`proposed_price` has no positivity constraint in the schema. -/
structure MessageCreate where
  content : String
  message_type : String := "text"
  proposed_price : Option ℚ := none
  media_url : Option String := none
  duration : Option ℚ := none
deriving Repr, DecidableEq

/-- `send_message` (`app/api/endpoints/chat.py` lines 169-221).
Access check, closed-room check, then the single price-proposal
validation of the source: only `proposed_price is None` is rejected. -/
def send_message (db : DB) (current_user_id : Nat) (room_id : Nat)
    (message_in : MessageCreate) : Except Err (Message × DB) :=
  match findRoom db room_id with
  | none => .error (.notFound "Chat room not found")
  | some room =>
    if current_user_id = room.customer_id ∨ current_user_id = room.professional_id then
      if room.status ≠ "active" then .error (.badRequest "Chat room is closed")
      else if message_in.message_type = "price_proposal" ∧ message_in.proposed_price = none then
        .error (.badRequest "Price proposal requires a proposed_price")
      else
        let message : Message :=
          { id := db.nextId, chat_room_id := room_id, sender_id := current_user_id,
            content := message_in.content, message_type := message_in.message_type,
            proposed_price := message_in.proposed_price,
            media_url := message_in.media_url, duration := message_in.duration }
        .ok (message, { db with
          messages := db.messages ++ [message], nextId := db.nextId + 1 })
    else .error (.forbidden "Not authorized")

/-- The source query `ORDER BY created_at DESC LIMIT 1` over messages of
type `price_proposal` in one room: the last matching element of the
insertion-ordered message list. -/
def lastPriceProposal (db : DB) (room_id : Nat) : Option Message :=
  (db.messages.filter (fun m =>
    m.chat_room_id == room_id && m.message_type == "price_proposal")).getLast?

/-- `accept_price` (`app/api/endpoints/chat.py` lines 224-303).
Room lookup, participant check, latest-proposal lookup, self-acceptance
check — the source has no check of `room.status`.  On the main path it
appends a `price_accept` message, sets the room status to `"closed"`, sets
the linked request status to `"booked"` and appends a confirmed Booking.
If the linked request row is missing the source still mutates state but
then raises an uncaught `AttributeError` while formatting the confirmation
notification (`service_request.title` on `None`), so the transaction never
commits; that path is modelled as an integrity error with no state change. -/
def accept_price (db : DB) (current_user_id : Nat) (room_id : Nat) :
    Except Err (Booking × DB) :=
  match findRoom db room_id with
  | none => .error (.notFound "Chat room not found")
  | some room =>
    if current_user_id = room.customer_id ∨ current_user_id = room.professional_id then
      match lastPriceProposal db room_id with
      | none => .error (.badRequest "No price proposal found to accept")
      | some last_proposal =>
        if last_proposal.sender_id = current_user_id then
          .error (.badRequest "Cannot accept your own proposal")
        else
          match findRequest db room.request_id with
          | none => .error (.integrityError "AttributeError in notification formatting")
          | some service_request =>
            let accept_msg : Message :=
              { id := db.nextId, chat_room_id := room_id,
                sender_id := current_user_id, content := "Price accepted",
                message_type := "price_accept",
                proposed_price := last_proposal.proposed_price,
                media_url := none, duration := none }
            let booking : Booking :=
              { id := db.nextId + 1, request_id := room.request_id,
                customer_id := room.customer_id,
                professional_id := room.professional_id,
                agreed_price := last_proposal.proposed_price,
                status := "confirmed",
                scheduled_at := service_request.scheduled_at }
            .ok (booking, { db with
              messages := db.messages ++ [accept_msg],
              rooms := db.rooms.map (fun r =>
                if r.id = room_id then { r with status := "closed" } else r),
              requests := db.requests.map (fun q =>
                if q.id = room.request_id then { q with status := "booked" } else q),
              bookings := db.bookings ++ [booking],
              nextId := db.nextId + 2 })
    else .error (.forbidden "Not authorized")

-- ─── Booking endpoints (`app/api/endpoints/bookings.py`) ─────────────

/-- `accept_booking` (`app/api/endpoints/bookings.py` lines 135-207).
Pro-role check, then the id is first resolved as a ServiceRequest (the
"pending" browse flow): if found — with no check of its current status —
the request is set to `"booked"` and a fresh confirmed zero-price Booking
is appended.  Otherwise the id is resolved as an existing Booking which is
reassigned to the caller and re-confirmed. -/
def accept_booking (db : DB) (current_user : User) (booking_id : Nat) :
    Except Err (Booking × DB) :=
  if current_user.role ≠ "pro" then
    .error (.badRequest "Only professionals can accept bookings")
  else
    match findRequest db booking_id with
    | some service_req =>
      let new_booking : Booking :=
        { id := db.nextId, request_id := service_req.id,
          customer_id := service_req.customer_id,
          professional_id := current_user.id, agreed_price := some 0,
          status := "confirmed", scheduled_at := service_req.scheduled_at }
      .ok (new_booking, { db with
        requests := db.requests.map (fun q =>
          if q.id = service_req.id then { q with status := "booked" } else q),
        bookings := db.bookings ++ [new_booking],
        nextId := db.nextId + 1 })
    | none =>
      match findBooking db booking_id with
      | none => .error (.notFound "Booking not found")
      | some booking =>
        let booking' := { booking with
          professional_id := current_user.id, status := "confirmed" }
        .ok (booking', { db with
          bookings := db.bookings.map (fun b =>
            if b.id = booking_id then booking' else b) })

-- ─── Review endpoint (`app/api/endpoints/reviews.py`) ────────────────

/-- Request body `ReviewCreate` (`app/models/chat.py` lines 100-103). -/
structure ReviewCreate where
  booking_id : Nat
  rating : Int
  comment : Option String := none
deriving Repr, DecidableEq

/-- `create_review` (`app/api/endpoints/reviews.py` lines 13-70).
Booking lookup, completed-status check, reviewee = the other participant,
duplicate check filtered by (booking, reviewer), rating range check, then
insert.  The final guard models the `unique=True` constraint on
`reviews.booking_id` (`app/db/db_models.py` line 196): the flush raises an
uncaught integrity error when any review row for the booking exists. -/
def create_review (db : DB) (current_user_id : Nat) (review_in : ReviewCreate) :
    Except Err (Review × DB) :=
  match findBooking db review_in.booking_id with
  | none => .error (.notFound "Booking not found")
  | some booking =>
    if booking.status ≠ "completed" then
      .error (.badRequest "Can only review completed bookings")
    else if current_user_id = booking.customer_id then
      create_review.insert db current_user_id review_in booking.professional_id
    else if current_user_id = booking.professional_id then
      create_review.insert db current_user_id review_in booking.customer_id
    else .error (.forbidden "Not authorized to review this booking")
where
  /-- The common tail of `create_review` once the reviewee is determined. -/
  insert (db : DB) (current_user_id : Nat) (review_in : ReviewCreate)
      (reviewee_id : Nat) : Except Err (Review × DB) :=
    if (db.reviews.find? (fun r =>
        r.booking_id == review_in.booking_id &&
        r.reviewer_id == current_user_id)).isSome then
      .error (.badRequest "Already reviewed this booking")
    else if ¬ (1 ≤ review_in.rating ∧ review_in.rating ≤ 5) then
      .error (.badRequest "Rating must be between 1 and 5")
    else if db.reviews.any (fun r => r.booking_id == review_in.booking_id) then
      .error (.integrityError "UNIQUE constraint failed: reviews.booking_id")
    else
      let review : Review :=
        { id := db.nextId, booking_id := review_in.booking_id,
          reviewer_id := current_user_id, reviewee_id := reviewee_id,
          rating := review_in.rating, comment := review_in.comment }
      .ok (review, { db with
        reviews := db.reviews ++ [review], nextId := db.nextId + 1 })

-- ─── Matching engine (`app/api/endpoints/requests.py`) ───────────────

/-- Python `s.lower().split()`: lower-case, split on whitespace, drop
empty fragments. -/
def pyWords (s : String) : List String :=
  (s.toLower.split Char.isWhitespace).filter (fun w => w ≠ "")

/-- The fixed domain vocabulary of `compute_keyword_score`
(`app/api/endpoints/requests.py` lines 136-147). -/
def service_keywords : Finset String :=
  (["leak", "pipe", "faucet", "drain", "tap", "sink", "toilet", "shower",
    "wire", "switch", "socket", "light", "fan", "circuit", "board", "mcb",
    "paint", "wall", "ceiling", "waterproof", "primer", "color",
    "clean", "deep", "kitchen", "bathroom", "floor", "carpet", "sofa",
    "ac", "cooling", "gas", "compressor", "filter", "split", "window",
    "pest", "cockroach", "termite", "rat", "mosquito", "bug",
    "wood", "furniture", "door", "cabinet", "shelf", "table",
    "hair", "facial", "makeup", "spa", "massage", "nail", "wax",
    "repair", "install", "fix", "replace", "maintain", "service",
    "urgent", "emergency", "quick", "fast", "today", "asap"]).toFinset

/-- The stop-word set subtracted from the raw word overlap
(`app/api/endpoints/requests.py` line 158). -/
def overlap_stop_words : Finset String :=
  (["a", "an", "the", "is", "are", "in", "on", "at", "to", "for", "and",
    "or", "i", "my", "can", "you"]).toFinset

/-- `compute_keyword_score` (`app/api/endpoints/requests.py` lines 130-164).
Python set operations become `Finset String` operations; the empty-string
test is the Python falsiness test on the two inputs.  In the source
`desc_words & bio_words - {...}` parses as
`desc_words & (bio_words - {...})` (Python precedence), kept as such.
Only the numeric score is returned: the source's second return value is a
sample of at most three matched words consumed solely by the omitted
`match_reason` display string. -/
def compute_keyword_score (description bio : String) : ℚ :=
  if description = "" ∨ bio = "" then 0
  else
    let desc_words := (pyWords description).toFinset
    let bio_words := (pyWords bio).toFinset
    let desc_keywords := desc_words ∩ service_keywords
    let bio_keywords := bio_words ∩ service_keywords
    let matched := desc_keywords ∩ bio_keywords
    let direct_overlap := desc_words ∩ (bio_words \ overlap_stop_words)
    if desc_keywords = ∅ then
      min ((direct_overlap.card : ℚ) * 15) 100
    else
      min (((matched.card : ℚ) / ((Nat.max desc_keywords.card 1 : ℕ) : ℚ)) * 100) 100

/-- `SELECT avg(rating), count(id) FROM reviews WHERE reviewee_id = pro`. -/
def proReviews (db : DB) (pro_id : Nat) : List Review :=
  db.reviews.filter (fun r => r.reviewee_id == pro_id)

/-- SQL `AVG` of the professional's ratings; `NULL` (no rows) becomes 0.0
exactly as `float(row[0]) if row[0] else 0.0` does
(`app/api/endpoints/requests.py` line 181). -/
def avg_rating (db : DB) (pro_id : Nat) : ℚ :=
  let rs := proReviews db pro_id
  if rs.length = 0 then 0
  else (rs.map (fun r => (r.rating : ℚ))).sum / (rs.length : ℚ)

/-- Rating sub-score (`app/api/endpoints/requests.py` line 183):
`(avg_rating / 5.0) * 100 if avg_rating > 0 else 50`. -/
def rating_score (db : DB) (pro_id : Nat) : ℚ :=
  if 0 < avg_rating db pro_id then (avg_rating db pro_id / 5) * 100 else 50

/-- Count of the professional's unbooked availability slots. -/
def avail_count (db : DB) (pro_id : Nat) : Nat :=
  (db.avail.filter (fun a => a.professional_id == pro_id && a.is_booked == false)).length

/-- Availability sub-score (`app/api/endpoints/requests.py` line 195):
`min(avail_count * 33, 100)`. -/
def availability_score (db : DB) (pro_id : Nat) : ℚ :=
  min ((avail_count db pro_id : ℚ) * 33) 100

/-- Count of the professional's completed bookings. -/
def jobs_completed (db : DB) (pro_id : Nat) : Nat :=
  (db.bookings.filter (fun b =>
    b.professional_id == pro_id && b.status == "completed")).length

/-- Experience sub-score (`app/api/endpoints/requests.py` line 203):
`min(jobs_completed * 20, 100)`. -/
def experience_score (db : DB) (pro_id : Nat) : ℚ :=
  min ((jobs_completed db pro_id : ℚ) * 20) 100

/-- Python `round(x, 1)` on the exact rational model: round to the nearest
tenth (the tie-breaking direction of a float `round` is irrelevant to the
claims proved here). -/
def roundTo1 (q : ℚ) : ℚ :=
  ((round (q * 10) : ℤ) : ℚ) / 10

/-- The weighted composite score of one candidate
(`app/api/endpoints/requests.py` lines 206-211), before rounding.
The description argument is `service_request.description or
service_request.title` and the bio argument `pro.bio or ""`. -/
def total_score (db : DB) (sr : ServiceRequest) (pro : User) : ℚ :=
  let desc := if sr.description = "" then sr.title else sr.description
  let keyword_score := compute_keyword_score desc (pro.bio.getD "")
  keyword_score * 0.40 +
    rating_score db pro.id * 0.25 +
    availability_score db pro.id * 0.20 +
    experience_score db pro.id * 0.15

/-- The response profile (`ProProfile` in `app/models/user.py`), restricted
to the data-bearing fields; display names and the `match_reason`
justification string are presentation-only renderings and omitted. -/
structure ProProfile where
  id : Nat
  role : String
  service_category : Option String
  is_active : Bool
  rating : ℚ
  jobs_completed : Nat
  reviews_count : Nat
  match_score : ℚ
deriving Repr, DecidableEq

/-- One scored profile as built in the loop of `get_matched_professionals`
(`app/api/endpoints/requests.py` lines 226-242). -/
def buildProfile (db : DB) (sr : ServiceRequest) (pro : User) : ProProfile :=
  { id := pro.id, role := pro.role, service_category := pro.service_category,
    is_active := pro.is_active,
    rating := roundTo1 (avg_rating db pro.id),
    jobs_completed := jobs_completed db pro.id,
    reviews_count := (proReviews db pro.id).length,
    match_score := roundTo1 (total_score db sr pro) }

/-- Stable descending insertion on `match_score`: the element is placed
after every already-sorted element with a score at least as large,
matching `list.sort(key=..., reverse=True)` (stable descending). -/
def insertByScore (x : ProProfile) : List ProProfile → List ProProfile
  | [] => [x]
  | y :: ys =>
    if x.match_score ≤ y.match_score then y :: insertByScore x ys
    else x :: y :: ys

/-- `profiles.sort(key=lambda p: p.match_score or 0, reverse=True)`
(`app/api/endpoints/requests.py` line 245). -/
def sortByScoreDesc (l : List ProProfile) : List ProProfile :=
  l.foldr insertByScore []

/-- `get_matched_professionals` (`app/api/endpoints/requests.py`
lines 96-246): request lookup (404 when absent), candidate query
`role == "pro" AND is_active AND service_category == request.category_id`
(an SQL `NULL == x` comparison excludes professionals with no category),
scoring loop and the final descending sort. -/
def get_matched_professionals (db : DB) (request_id : Nat) :
    Except Err (List ProProfile) :=
  match findRequest db request_id with
  | none => .error (.notFound "Request not found")
  | some service_request =>
    let professionals := db.users.filter (fun u =>
      u.role == "pro" && u.is_active &&
      u.service_category == some service_request.category_id)
    .ok (sortByScoreDesc (professionals.map (buildProfile db service_request)))

-- ─── Concrete example data (used by the witness theorems) ────────────

/-- Example customer, mirroring the integration-test scenario. -/
def exCustomer : User :=
  { id := 10, full_name := "Rajat Customer", role := "customer",
    service_category := none, bio := none, is_active := true }

/-- Example plumbing professional. -/
def exPro : User :=
  { id := 20, full_name := "Ramesh Plumber", role := "pro",
    service_category := some "plumbing",
    bio := some "i repair leak and pipe problems", is_active := true }

/-- Example open plumbing request. -/
def exRequest : ServiceRequest :=
  { id := 1, customer_id := 10, category_id := "plumbing",
    title := "Kitchen Sink Leak",
    description := "kitchen sink leak water dripping from the pipe",
    scheduled_at := some 7, status := "open" }

/-- Example active chat room between `exCustomer` and `exPro`. -/
def exRoom : ChatRoom :=
  { id := 2, request_id := 1, customer_id := 10, professional_id := 20,
    status := "active" }

/-- Negotiation history 400 (pro), 300 (customer), 350 (pro). -/
def exProposal400 : Message :=
  { id := 3, chat_room_id := 2, sender_id := 20, content := "i can do it for 400",
    message_type := "price_proposal", proposed_price := some 400,
    media_url := none, duration := none }

def exProposal300 : Message :=
  { id := 4, chat_room_id := 2, sender_id := 10, content := "can you do 300",
    message_type := "price_proposal", proposed_price := some 300,
    media_url := none, duration := none }

def exProposal350 : Message :=
  { id := 5, chat_room_id := 2, sender_id := 20, content := "final offer 350",
    message_type := "price_proposal", proposed_price := some 350,
    media_url := none, duration := none }

/-- Store state just before the customer accepts the price. -/
def exDb : DB :=
  { users := [exCustomer, exPro], requests := [exRequest], rooms := [exRoom],
    messages := [exProposal400, exProposal300, exProposal350],
    bookings := [], reviews := [], avail := [], nextId := 6 }

/-- Store state after the customer's first successful `accept_price`. -/
def exDbAccepted : DB :=
  ((okVal (accept_price exDb 10 2)).map Prod.snd).getD exDb

/-- A five-star review already received by the example professional. -/
def exReview5 : Review :=
  { id := 90, booking_id := 7, reviewer_id := 10, reviewee_id := 20,
    rating := 5, comment := some "excellent work" }

/-- An unbooked availability slot of the example professional. -/
def exSlot : Availability :=
  { id := 91, professional_id := 20, is_booked := false }

/-- An inactive plumber (must never be matched). -/
def exInactivePro : User :=
  { id := 22, full_name := "Inactive Plumber", role := "pro",
    service_category := some "plumbing", bio := none, is_active := false }

/-- An active professional of a different category (must never be matched). -/
def exElectrician : User :=
  { id := 23, full_name := "Sparky Electrician", role := "pro",
    service_category := some "electrical", bio := some "wire and switch work",
    is_active := true }

/-- Store state for exercising the matching engine. -/
def exDbMatch : DB :=
  { users := [exCustomer, exPro, exInactivePro, exElectrician],
    requests := [exRequest], rooms := [], messages := [], bookings := [],
    reviews := [exReview5], avail := [exSlot], nextId := 200 }
-- ─── Helper lemmas ───────────────────────────────────────────────────

theorem find?_append_of_none {α : Type} {p : α → Bool} {l₁ : List α} (l₂ : List α)
    (h : l₁.find? p = none) : (l₁ ++ l₂).find? p = l₂.find? p := by
  induction l₁ with
  | nil => rfl
  | cons x xs ih =>
    rw [List.find?_cons] at h
    rcases hx : p x with _ | _
    · rw [List.cons_append, List.find?_cons, hx]
      exact ih (by simpa [hx] using h)
    · simp [hx] at h

theorem find?_map_of_pred {α : Type} (p : α → Bool) (f : α → α) (l : List α)
    (hf : ∀ x, p (f x) = p x) : (l.map f).find? p = (l.find? p).map f := by
  induction l with
  | nil => rfl
  | cons x xs ih =>
    rw [List.map_cons, List.find?_cons, List.find?_cons, hf x]
    rcases hx : p x with _ | _
    · simpa [hx] using ih
    · simp [hx]

theorem filter_append_of_nil {α : Type} {p : α → Bool} {l₁ : List α} (l₂ : List α)
    (h : l₁.filter p = []) : (l₁ ++ l₂).filter p = l₂.filter p := by
  rw [List.filter_append, h, List.nil_append]

theorem list_sum_le_mul_length (l : List ℚ) (c : ℚ) (h : ∀ x ∈ l, x ≤ c) :
    l.sum ≤ c * l.length := by
  induction l with
  | nil => simp
  | cons x xs ih =>
    have hx := h x (List.mem_cons_self x xs)
    have hxs := ih (fun y hy => h y (List.mem_cons_of_mem x hy))
    rw [List.sum_cons, List.length_cons]
    push_cast
    linarith

theorem mul_length_le_list_sum (l : List ℚ) (c : ℚ) (h : ∀ x ∈ l, c ≤ x) :
    c * l.length ≤ l.sum := by
  induction l with
  | nil => simp
  | cons x xs ih =>
    have hx := h x (List.mem_cons_self x xs)
    have hxs := ih (fun y hy => h y (List.mem_cons_of_mem x hy))
    rw [List.sum_cons, List.length_cons]
    push_cast
    linarith

theorem mem_insertByScore {a x : ProProfile} {l : List ProProfile}
    (h : a ∈ insertByScore x l) : a = x ∨ a ∈ l := by
  induction l with
  | nil => simpa [insertByScore] using h
  | cons y ys ih =>
    rw [insertByScore] at h
    split at h
    · rcases List.mem_cons.mp h with hy | hrest
      · exact Or.inr (hy ▸ List.mem_cons_self y ys)
      · rcases ih hrest with h1 | h2
        · exact Or.inl h1
        · exact Or.inr (List.mem_cons_of_mem y h2)
    · rcases List.mem_cons.mp h with hy | hrest
      · exact Or.inl hy
      · exact Or.inr hrest

theorem mem_sortByScoreDesc {a : ProProfile} {l : List ProProfile}
    (h : a ∈ sortByScoreDesc l) : a ∈ l := by
  rw [sortByScoreDesc] at h
  induction l with
  | nil => simp at h
  | cons x xs ih =>
    rw [List.foldr_cons] at h
    rcases mem_insertByScore h with h1 | h2
    · exact h1 ▸ List.mem_cons_self x xs
    · exact List.mem_cons_of_mem x (ih h2)

theorem pairwise_insertByScore {x : ProProfile} {l : List ProProfile}
    (h : l.Pairwise (fun a b => b.match_score ≤ a.match_score)) :
    (insertByScore x l).Pairwise (fun a b => b.match_score ≤ a.match_score) := by
  induction l with
  | nil => simp [insertByScore]
  | cons y ys ih =>
    rw [List.pairwise_cons] at h
    rw [insertByScore]
    split
    · rename_i hle
      rw [List.pairwise_cons]
      refine ⟨fun b hb => ?_, ih h.2⟩
      rcases mem_insertByScore hb with h1 | h2
      · exact h1 ▸ hle
      · exact h.1 b h2
    · rename_i hgt
      push_neg at hgt
      rw [List.pairwise_cons]
      refine ⟨fun b hb => ?_, List.pairwise_cons.mpr h⟩
      rcases List.mem_cons.mp hb with h1 | h2
      · exact h1 ▸ le_of_lt hgt
      · exact le_trans (h.1 b h2) (le_of_lt hgt)

theorem pairwise_sortByScoreDesc (l : List ProProfile) :
    (sortByScoreDesc l).Pairwise (fun a b => b.match_score ≤ a.match_score) := by
  rw [sortByScoreDesc]
  induction l with
  | nil => simp
  | cons x xs ih => exact pairwise_insertByScore ih

theorem roundTo1_bounds {q : ℚ} (h0 : 0 ≤ q) (h1 : q ≤ 100) :
    0 ≤ roundTo1 q ∧ roundTo1 q ≤ 100 := by
  have hlo : (0 : ℤ) ≤ round (q * 10) := by
    rw [round_eq]
    exact Int.le_floor.mpr (by push_cast; linarith)
  have hhi : round (q * 10) ≤ (1000 : ℤ) := by
    rw [round_eq]
    have hfl : ((⌊q * 10 + 1 / 2⌋ : ℤ) : ℚ) ≤ q * 10 + 1 / 2 := Int.floor_le _
    have hlt : ((⌊q * 10 + 1 / 2⌋ : ℤ) : ℚ) < ((1001 : ℤ) : ℚ) := by
      push_cast at hfl ⊢
      linarith
    have : ⌊q * 10 + 1 / 2⌋ < (1001 : ℤ) := by exact_mod_cast hlt
    omega
  constructor
  · have : (0 : ℚ) ≤ ((round (q * 10) : ℤ) : ℚ) := by exact_mod_cast hlo
    rw [roundTo1]
    positivity
  · rw [roundTo1, div_le_iff₀ (by norm_num : (0:ℚ) < 10)]
    calc ((round (q * 10) : ℤ) : ℚ) ≤ ((1000 : ℤ) : ℚ) := by exact_mod_cast hhi
    _ = 100 * 10 := by norm_num

theorem compute_keyword_score_bounds (d b : String) :
    0 ≤ compute_keyword_score d b ∧ compute_keyword_score d b ≤ 100 := by
  simp only [compute_keyword_score]
  split
  · norm_num
  · split
    · exact ⟨le_min (by positivity) (by norm_num), min_le_right _ _⟩
    · exact ⟨le_min (by positivity) (by norm_num), min_le_right _ _⟩

theorem rating_score_nonneg (db : DB) (pid : Nat) : 0 ≤ rating_score db pid := by
  rw [rating_score]
  split
  · rename_i h
    exact le_of_lt (mul_pos (div_pos h (by norm_num)) (by norm_num))
  · norm_num

theorem avg_rating_le_five (db : DB) (pid : Nat)
    (h : ∀ r ∈ db.reviews, r.rating ≤ 5) : avg_rating db pid ≤ 5 := by
  rw [avg_rating]
  split
  · norm_num
  · rename_i hlen
    have hpos : (0 : ℚ) < ((proReviews db pid).length : ℚ) := by
      exact_mod_cast Nat.pos_of_ne_zero hlen
    rw [div_le_iff₀ hpos]
    have hsum := list_sum_le_mul_length
      ((proReviews db pid).map (fun r => (r.rating : ℚ))) 5 ?_
    · simpa [mul_comm] using hsum
    · intro x hx
      obtain ⟨r, hr, hrx⟩ := List.mem_map.mp hx
      have hr5 : r.rating ≤ 5 := h r (List.mem_filter.mp hr).1
      rw [← hrx]
      exact_mod_cast hr5

theorem rating_score_le_100 (db : DB) (pid : Nat)
    (h : ∀ r ∈ db.reviews, r.rating ≤ 5) : rating_score db pid ≤ 100 := by
  rw [rating_score]
  split
  · have h5 := avg_rating_le_five db pid h
    have : avg_rating db pid / 5 * 100 = avg_rating db pid * 20 := by ring
    linarith [this]
  · norm_num

theorem availability_score_bounds (db : DB) (pid : Nat) :
    0 ≤ availability_score db pid ∧ availability_score db pid ≤ 100 :=
  ⟨le_min (by positivity) (by norm_num), min_le_right _ _⟩

theorem experience_score_bounds (db : DB) (pid : Nat) :
    0 ≤ experience_score db pid ∧ experience_score db pid ≤ 100 :=
  ⟨le_min (by positivity) (by norm_num), min_le_right _ _⟩

theorem total_score_bounds (db : DB) (sr : ServiceRequest) (pro : User)
    (h5 : ∀ r ∈ db.reviews, r.rating ≤ 5) :
    0 ≤ total_score db sr pro ∧ total_score db sr pro ≤ 100 := by
  obtain ⟨k0, k1⟩ := compute_keyword_score_bounds
    (if sr.description = "" then sr.title else sr.description) (pro.bio.getD "")
  have r0 := rating_score_nonneg db pro.id
  have r1 := rating_score_le_100 db pro.id h5
  obtain ⟨a0, a1⟩ := availability_score_bounds db pro.id
  obtain ⟨e0, e1⟩ := experience_score_bounds db pro.id
  rw [total_score]
  constructor
  · norm_num
    linarith
  · norm_num
    linarith

theorem buildProfile_match_score_bounds (db : DB) (sr : ServiceRequest) (pro : User)
    (h5 : ∀ r ∈ db.reviews, r.rating ≤ 5) :
    0 ≤ (buildProfile db sr pro).match_score ∧
      (buildProfile db sr pro).match_score ≤ 100 := by
  obtain ⟨t0, t1⟩ := total_score_bounds db sr pro h5
  exact roundTo1_bounds t0 t1

-- ─── Claim theorems ──────────────────────────────────────────────────

/-- C1: For every chat room with at least one `price_proposal` message whose
latest proposal was sent by the other participant, a successful
`accept_price` call appends a `price_accept` message echoing the accepted
amount, sets the room's status to `closed`, sets the linked ServiceRequest's
status to `booked`, and returns a newly created Booking whose `agreed_price`
equals the latest proposal's `proposed_price`, whose status is `confirmed`
and whose `scheduled_at` is copied from the request. -/
theorem accept_price_success (db : DB) (uid rid : Nat) (room : ChatRoom)
    (lp : Message) (sr : ServiceRequest)
    (hroom : findRoom db rid = some room)
    (hpart : uid = room.customer_id ∨ uid = room.professional_id)
    (hlp : lastPriceProposal db rid = some lp)
    (hsender : ¬ lp.sender_id = uid)
    (hsr : findRequest db room.request_id = some sr) :
    ∃ (b : Booking) (db' : DB),
      accept_price db uid rid = .ok (b, db') ∧
      (∃ m : Message, db'.messages = db.messages ++ [m] ∧
        m.message_type = "price_accept" ∧ m.proposed_price = lp.proposed_price ∧
        m.sender_id = uid) ∧
      findRoom db' rid = some { room with status := "closed" } ∧
      findRequest db' room.request_id = some { sr with status := "booked" } ∧
      db'.bookings = db.bookings ++ [b] ∧
      b.agreed_price = lp.proposed_price ∧
      b.status = "confirmed" ∧
      b.scheduled_at = sr.scheduled_at := by
  have hid : room.id = rid := by
    rw [findRoom] at hroom
    simpa using List.find?_some hroom
  have hsrid : sr.id = room.request_id := by
    rw [findRequest] at hsr
    simpa using List.find?_some hsr
  simp only [accept_price, hroom, hlp, hsr]
  rw [if_pos hpart, if_neg hsender]
  refine ⟨_, _, rfl, ⟨_, rfl, rfl, rfl, rfl⟩, ?_, ?_, rfl, rfl, rfl, rfl⟩
  · rw [findRoom]
    rw [find?_map_of_pred _ _ _ (fun x => by by_cases hx : x.id = rid <;> simp [hx])]
    rw [findRoom] at hroom
    rw [hroom]
    simp [hid]
  · rw [findRequest]
    rw [find?_map_of_pred _ _ _
      (fun x => by by_cases hx : x.id = room.request_id <;> simp [hx])]
    rw [findRequest] at hsr
    rw [hsr]
    simp [hsrid]

/-- C1 witness: the integration-test negotiation (400, 300, 350 with the last
proposal from the professional) accepted by the customer. -/
theorem accept_price_success_witness :
    ∃ (b : Booking) (db' : DB),
      accept_price exDb 10 2 = .ok (b, db') ∧
      (∃ m : Message, db'.messages = exDb.messages ++ [m] ∧
        m.message_type = "price_accept" ∧ m.proposed_price = exProposal350.proposed_price ∧
        m.sender_id = 10) ∧
      findRoom db' 2 = some { exRoom with status := "closed" } ∧
      findRequest db' exRoom.request_id = some { exRequest with status := "booked" } ∧
      db'.bookings = exDb.bookings ++ [b] ∧
      b.agreed_price = exProposal350.proposed_price ∧
      b.status = "confirmed" ∧
      b.scheduled_at = exRequest.scheduled_at :=
  accept_price_success exDb 10 2 exRoom exProposal350 exRequest
    (by decide) (Or.inl (by decide)) (by decide) (by decide) (by decide)

/-- C2: evaluation of the source at the failing input.  After the customer's
first successful acceptance the room is `closed`, yet a repeated
`accept_price` by the same customer does NOT fail with Conflict or
InvalidState: the source never re-checks `room.status`, the latest
`price_proposal` row is still present, so the call succeeds again and a
second (duplicate) Booking for the same room is created. -/
theorem accept_price_repeat_creates_duplicate_booking :
    (findRoom exDbAccepted 2).map ChatRoom.status = some "closed" ∧
    exDbAccepted.bookings.length = 1 ∧
    (okVal (accept_price exDbAccepted 10 2)).map
      (fun p => (p.1.status, p.1.agreed_price, p.2.bookings.length)) =
      some ("confirmed", some 350, 2) := by decide

/-- A request that has already been booked by a first professional, with the
Booking that acceptance produced. -/
def exBookedRequest : ServiceRequest :=
  { id := 30, customer_id := 10, category_id := "plumbing",
    title := "Ceiling Fan Repair", description := "fan not working",
    scheduled_at := none, status := "booked" }

def exBookingOfRequest30 : Booking :=
  { id := 31, request_id := 30, customer_id := 10, professional_id := 20,
    agreed_price := some 0, status := "confirmed", scheduled_at := none }

/-- A second professional in the same category. -/
def exPro2 : User :=
  { id := 21, full_name := "Suresh Plumber", role := "pro",
    service_category := some "plumbing", bio := some "pipe and drain work",
    is_active := true }

/-- Store state in which request 30 is no longer open. -/
def exDbBooked : DB :=
  { users := [exCustomer, exPro, exPro2], requests := [exBookedRequest],
    rooms := [], messages := [], bookings := [exBookingOfRequest30],
    reviews := [], avail := [], nextId := 40 }

/-- C3: evaluation of the source at the failing input.  `accept_booking` by a
second professional on a request whose status is already `booked` (not
`open`) does NOT fail with Conflict: the source never checks the request's
status, so the call succeeds, re-books the request and appends a second
confirmed zero-price Booking for it. -/
theorem accept_booking_ignores_request_status :
    exBookedRequest.status ≠ "open" ∧
    (okVal (accept_booking exDbBooked exPro2 30)).map
      (fun p => (p.1.status, p.1.agreed_price, p.1.professional_id,
        p.2.bookings.length, (findRequest p.2 30).map ServiceRequest.status)) =
      some ("confirmed", some 0, 21, 2, some "booked") := by decide

/-- C6 counterexample: the claim says a `price_proposal` with zero or
negative `proposed_price` is rejected with a Validation error and no Message
is created.  At this concrete input the source accepts both a zero and a
negative proposed price and creates the Message: the only rejected shape is
a missing (`None`) price. -/
theorem send_message_zero_or_negative_price_accepted :
    (okVal (send_message exDb 20 2
        { content := "for free", message_type := "price_proposal",
          proposed_price := some 0 })).map
      (fun p => (p.1.message_type, p.1.proposed_price, p.2.messages.length)) =
      some ("price_proposal", some 0, 4) ∧
    (okVal (send_message exDb 20 2
        { content := "i pay you", message_type := "price_proposal",
          proposed_price := some (-50) })).map
      (fun p => (p.1.message_type, p.1.proposed_price, p.2.messages.length)) =
      some ("price_proposal", some (-50), 4) := by decide

/-- C6 (amended): posting a message of type `price_proposal` requires a
present `proposed_price`: a proposal with `proposed_price` missing is
rejected with a Validation error and no Message is created, while zero or
negative prices pass the check. -/
theorem send_message_missing_price_rejected (db : DB) (uid rid : Nat)
    (room : ChatRoom) (mi : MessageCreate)
    (hroom : findRoom db rid = some room)
    (hpart : uid = room.customer_id ∨ uid = room.professional_id)
    (hactive : room.status = "active")
    (htype : mi.message_type = "price_proposal")
    (hprice : mi.proposed_price = none) :
    send_message db uid rid mi =
      .error (.badRequest "Price proposal requires a proposed_price") := by
  simp only [send_message, hroom]
  rw [if_pos hpart, if_neg (by simp [hactive]), if_pos ⟨htype, hprice⟩]

/-- C6 witness: a professional posting a price proposal with no price in the
example room is rejected. -/
theorem send_message_missing_price_rejected_witness :
    send_message exDb 20 2 { content := "how about this", message_type := "price_proposal" } =
      .error (.badRequest "Price proposal requires a proposed_price") :=
  send_message_missing_price_rejected exDb 20 2 exRoom
    { content := "how about this", message_type := "price_proposal" }
    (by decide) (Or.inr (by decide)) (by decide) (by decide) (by decide)

/-- Store well-formedness: every stored room id and every message's room
reference was generated strictly below the fresh-id counter (UUIDs already
in the store are never equal to a freshly generated one). -/
def dbWF (db : DB) : Prop :=
  (∀ r ∈ db.rooms, r.id < db.nextId) ∧
  (∀ m ∈ db.messages, m.chat_room_id < db.nextId)

/-- C7: chat room creation is idempotent — when no room exists yet for the
(request, customer, professional) triple, the first `create_chat_room`
creates a room and its single system message, and a repeated call returns
the very same room id with the store unchanged, so exactly one system
message exists in the room. -/
theorem create_chat_room_idempotent (db : DB) (u : User) (ri : ChatRoomCreate)
    (sr : ServiceRequest)
    (hwf : dbWF db)
    (hsr : findRequest db ri.request_id = some sr)
    (hnone : db.rooms.find? (fun r =>
      r.request_id == ri.request_id && r.customer_id == u.id &&
      r.professional_id == ri.professional_id) = none) :
    ∃ (r1 : ChatRoom) (db1 : DB),
      create_chat_room db u ri = .ok (r1, db1) ∧
      create_chat_room db1 u ri = .ok (r1, db1) ∧
      (db1.messages.filter (fun m =>
        m.chat_room_id == r1.id && m.message_type == "system")).length = 1 := by
  simp only [create_chat_room, hsr, hnone]
  refine ⟨_, _, rfl, ?_, ?_⟩
  · have hsr1 : findRequest { db with
        rooms := db.rooms ++ [⟨db.nextId, ri.request_id, u.id, ri.professional_id, "active"⟩],
        messages := db.messages ++ [⟨db.nextId + 1, db.nextId, u.id,
          "Chat started for: " ++ sr.title, "system", none, none, none⟩],
        nextId := db.nextId + 2 } ri.request_id = some sr := hsr
    simp only [create_chat_room, hsr1]
    rw [find?_append_of_none _ hnone]
    simp [List.find?]
  · rw [filter_append_of_nil]
    · simp [List.filter]
    · rw [List.filter_eq_nil_iff]
      intro m hm
      have := hwf.2 m hm
      simp only [Bool.and_eq_true, beq_iff_eq]
      rintro ⟨h1, -⟩
      omega

/-- Store state before any chat room exists for the example request. -/
def exDbNoRooms : DB :=
  { users := [exCustomer, exPro], requests := [exRequest], rooms := [],
    messages := [], bookings := [], reviews := [], avail := [], nextId := 100 }

/-- C7 witness: creating the example room twice from a room-free store. -/
theorem create_chat_room_idempotent_witness :
    ∃ (r1 : ChatRoom) (db1 : DB),
      create_chat_room exDbNoRooms exCustomer { request_id := 1, professional_id := 20 } = .ok (r1, db1) ∧
      create_chat_room db1 exCustomer { request_id := 1, professional_id := 20 } = .ok (r1, db1) ∧
      (db1.messages.filter (fun m =>
        m.chat_room_id == r1.id && m.message_type == "system")).length = 1 :=
  create_chat_room_idempotent exDbNoRooms exCustomer
    { request_id := 1, professional_id := 20 } exRequest
    (by constructor <;> decide) (by decide) (by decide)

/-- The review row `create_review` inserts on its success path. -/
def mkReview (db : DB) (uid : Nat) (ri : ReviewCreate) (reviewee : Nat) : Review :=
  { id := db.nextId, booking_id := ri.booking_id, reviewer_id := uid,
    reviewee_id := reviewee, rating := ri.rating, comment := ri.comment }

/-- The store state after `create_review`'s success path. -/
def afterInsertReview (db : DB) (uid : Nat) (ri : ReviewCreate) (reviewee : Nat) : DB :=
  { db with
    reviews := db.reviews ++ [mkReview db uid ri reviewee],
    nextId := db.nextId + 1 }

theorem insert_review_fresh (db : DB) (uid : Nat) (ri : ReviewCreate) (reviewee : Nat)
    (hrating : 1 ≤ ri.rating ∧ ri.rating ≤ 5)
    (hfresh : ∀ r ∈ db.reviews, r.booking_id ≠ ri.booking_id) :
    create_review.insert db uid ri reviewee =
      .ok (mkReview db uid ri reviewee, afterInsertReview db uid ri reviewee) := by
  have hnone : db.reviews.find? (fun r =>
      r.booking_id == ri.booking_id && r.reviewer_id == uid) = none := by
    rw [List.find?_eq_none]
    intro r hr
    simp only [Bool.and_eq_true, beq_iff_eq]
    rintro ⟨h1, -⟩
    exact hfresh r hr h1
  have hany : db.reviews.any (fun r => r.booking_id == ri.booking_id) = false := by
    rw [List.any_eq_false]
    intro r hr
    simp only [beq_iff_eq]
    exact hfresh r hr
  simp [create_review.insert, hnone, hany, hrating.1, hrating.2,
    mkReview, afterInsertReview]

theorem insert_review_dup (db : DB) (uid : Nat) (ri : ReviewCreate) (reviewee : Nat)
    (hdup : ∃ r ∈ db.reviews, r.booking_id = ri.booking_id ∧ r.reviewer_id = uid) :
    create_review.insert db uid ri reviewee =
      .error (.badRequest "Already reviewed this booking") := by
  obtain ⟨r, hr, h1, h2⟩ := hdup
  have hsome : (db.reviews.find? (fun r =>
      r.booking_id == ri.booking_id && r.reviewer_id == uid)).isSome = true := by
    rw [List.find?_isSome]
    exact ⟨r, hr, by simp [h1, h2]⟩
  simp [create_review.insert, hsome]

theorem insert_review_unique_violation (db : DB) (uid : Nat) (ri : ReviewCreate)
    (reviewee : Nat)
    (hnodup : ∀ r ∈ db.reviews, r.booking_id = ri.booking_id → r.reviewer_id ≠ uid)
    (hrating : 1 ≤ ri.rating ∧ ri.rating ≤ 5)
    (hex : ∃ r ∈ db.reviews, r.booking_id = ri.booking_id) :
    create_review.insert db uid ri reviewee =
      .error (.integrityError "UNIQUE constraint failed: reviews.booking_id") := by
  have hnone : db.reviews.find? (fun r =>
      r.booking_id == ri.booking_id && r.reviewer_id == uid) = none := by
    rw [List.find?_eq_none]
    intro r hr
    simp only [Bool.and_eq_true, beq_iff_eq]
    rintro ⟨h1, h2⟩
    exact hnodup r hr h1 h2
  have hany : db.reviews.any (fun r => r.booking_id == ri.booking_id) = true := by
    rw [List.any_eq_true]
    obtain ⟨r, hr, h1⟩ := hex
    exact ⟨r, hr, by simp [h1]⟩
  simp [create_review.insert, hnone, hany, hrating.1, hrating.2]

/-- C8: `create_review` fails with InvalidState (HTTP 400) when the booking
is not `completed`; on a `completed` booking a participant's review succeeds
with the reviewee computed as the other participant, and a second call by
the same reviewer for the same booking fails with InvalidState
("Already reviewed this booking"). -/
theorem create_review_once_per_reviewer (db : DB) (uid : Nat) (ri : ReviewCreate)
    (b : Booking)
    (hb : findBooking db ri.booking_id = some b)
    (hpart : uid = b.customer_id ∨ uid = b.professional_id)
    (hrating : 1 ≤ ri.rating ∧ ri.rating ≤ 5)
    (hfresh : ∀ r ∈ db.reviews, r.booking_id ≠ ri.booking_id) :
    (b.status ≠ "completed" →
      create_review db uid ri = .error (.badRequest "Can only review completed bookings")) ∧
    (b.status = "completed" →
      ∃ (rv : Review) (db1 : DB),
        create_review db uid ri = .ok (rv, db1) ∧
        rv.reviewer_id = uid ∧
        rv.reviewee_id = (if uid = b.customer_id then b.professional_id else b.customer_id) ∧
        create_review db1 uid ri = .error (.badRequest "Already reviewed this booking")) := by
  constructor
  · intro hne
    simp only [create_review, hb]
    rw [if_pos hne]
  · intro hc
    by_cases hcu : uid = b.customer_id
    · have h1 : create_review db uid ri =
          .ok (mkReview db uid ri b.professional_id,
               afterInsertReview db uid ri b.professional_id) := by
        simp only [create_review, hb]
        rw [if_neg (not_not_intro hc), if_pos hcu]
        exact insert_review_fresh db uid ri b.professional_id hrating hfresh
      refine ⟨_, _, h1, rfl, by rw [if_pos hcu]; exact rfl, ?_⟩
      have hb1 : findBooking (afterInsertReview db uid ri b.professional_id)
          ri.booking_id = some b := hb
      simp only [create_review, hb1]
      rw [if_neg (not_not_intro hc), if_pos hcu]
      apply insert_review_dup
      exact ⟨_, List.mem_append_right _ (List.mem_singleton_self _), rfl, rfl⟩
    · have hp : uid = b.professional_id := hpart.resolve_left hcu
      have h1 : create_review db uid ri =
          .ok (mkReview db uid ri b.customer_id,
               afterInsertReview db uid ri b.customer_id) := by
        simp only [create_review, hb]
        rw [if_neg (not_not_intro hc), if_neg hcu, if_pos hp]
        exact insert_review_fresh db uid ri b.customer_id hrating hfresh
      refine ⟨_, _, h1, rfl, by rw [if_neg hcu]; exact rfl, ?_⟩
      have hb1 : findBooking (afterInsertReview db uid ri b.customer_id)
          ri.booking_id = some b := hb
      simp only [create_review, hb1]
      rw [if_neg (not_not_intro hc), if_neg hcu, if_pos hp]
      apply insert_review_dup
      exact ⟨_, List.mem_append_right _ (List.mem_singleton_self _), rfl, rfl⟩

/-- A booking completed by the professional, ready for review. -/
def exCompletedBooking : Booking :=
  { id := 7, request_id := 1, customer_id := 10, professional_id := 20,
    agreed_price := some 350, status := "completed", scheduled_at := some 7 }

/-- A booking still merely confirmed (work not done yet). -/
def exConfirmedBooking : Booking :=
  { id := 8, request_id := 1, customer_id := 10, professional_id := 20,
    agreed_price := some 350, status := "confirmed", scheduled_at := some 7 }

/-- Store state holding both example bookings and no reviews. -/
def exDbBookings : DB :=
  { users := [exCustomer, exPro], requests := [exRequest], rooms := [],
    messages := [], bookings := [exCompletedBooking, exConfirmedBooking],
    reviews := [], avail := [], nextId := 60 }

/-- C8 witness: reviewing the confirmed booking fails; reviewing the
completed booking succeeds for the customer with the professional as
reviewee, and a repeat by the customer fails. -/
theorem create_review_once_per_reviewer_witness :
    create_review exDbBookings 10 { booking_id := 8, rating := 5 } =
      .error (.badRequest "Can only review completed bookings") ∧
    (∃ (rv : Review) (db1 : DB),
      create_review exDbBookings 10 { booking_id := 7, rating := 5 } = .ok (rv, db1) ∧
      rv.reviewer_id = 10 ∧
      rv.reviewee_id = (if 10 = exCompletedBooking.customer_id then
        exCompletedBooking.professional_id else exCompletedBooking.customer_id) ∧
      create_review db1 10 { booking_id := 7, rating := 5 } =
        .error (.badRequest "Already reviewed this booking")) :=
  ⟨(create_review_once_per_reviewer exDbBookings 10 { booking_id := 8, rating := 5 }
      exConfirmedBooking (by decide) (Or.inl (by decide)) (by decide) (by decide)).1
      (by decide),
   (create_review_once_per_reviewer exDbBookings 10 { booking_id := 7, rating := 5 }
      exCompletedBooking (by decide) (Or.inl (by decide)) (by decide) (by decide)).2
      (by decide)⟩

/-- C10: the Review schema declares `booking_id` unique, so at most one
review row can ever exist per booking.  After one participant (here the
customer) reviews a completed booking, the other participant's
`create_review` passes the endpoint's own duplicate check — which filters
only by the (booking, reviewer) pair — but the insert violates the unique
constraint and fails, leaving exactly one review row for the booking. -/
theorem review_unique_per_booking (db : DB) (ri : ReviewCreate) (b : Booking)
    (hb : findBooking db ri.booking_id = some b)
    (hc : b.status = "completed")
    (hne : b.customer_id ≠ b.professional_id)
    (hrating : 1 ≤ ri.rating ∧ ri.rating ≤ 5)
    (hfresh : ∀ r ∈ db.reviews, r.booking_id ≠ ri.booking_id) :
    ∃ (rv : Review) (db1 : DB),
      create_review db b.customer_id ri = .ok (rv, db1) ∧
      (db1.reviews.filter (fun r => r.booking_id == ri.booking_id)).length = 1 ∧
      create_review db1 b.professional_id ri =
        .error (.integrityError "UNIQUE constraint failed: reviews.booking_id") := by
  have h1 : create_review db b.customer_id ri =
      .ok (mkReview db b.customer_id ri b.professional_id,
           afterInsertReview db b.customer_id ri b.professional_id) := by
    simp only [create_review, hb]
    rw [if_neg (not_not_intro hc), if_pos trivial]
    exact insert_review_fresh db b.customer_id ri b.professional_id hrating hfresh
  refine ⟨_, _, h1, ?_, ?_⟩
  · show ((db.reviews ++ [mkReview db b.customer_id ri b.professional_id]).filter
      (fun r => r.booking_id == ri.booking_id)).length = 1
    rw [filter_append_of_nil]
    · simp [List.filter, mkReview]
    · rw [List.filter_eq_nil_iff]
      intro r hr
      simp only [beq_iff_eq]
      exact hfresh r hr
  · have hb1 : findBooking (afterInsertReview db b.customer_id ri b.professional_id)
        ri.booking_id = some b := hb
    simp only [create_review, hb1]
    rw [if_neg (not_not_intro hc), if_neg (fun h => hne h.symm), if_pos trivial]
    apply insert_review_unique_violation
    · intro r hr hbk
      rcases List.mem_append.mp hr with hin | hrv
      · exact absurd hbk (hfresh r hin)
      · rw [List.mem_singleton.mp hrv]
        exact fun hh => hne hh
    · exact hrating
    · exact ⟨mkReview db b.customer_id ri b.professional_id,
        List.mem_append_right _ (List.mem_singleton_self _), rfl⟩

/-- C10 witness: on the completed example booking, the customer's review
persists, and the professional's subsequent review hits the unique
constraint, leaving a single review row. -/
theorem review_unique_per_booking_witness :
    ∃ (rv : Review) (db1 : DB),
      create_review exDbBookings exCompletedBooking.customer_id { booking_id := 7, rating := 4 } = .ok (rv, db1) ∧
      (db1.reviews.filter (fun r => r.booking_id == (7 : Nat))).length = 1 ∧
      create_review db1 exCompletedBooking.professional_id { booking_id := 7, rating := 4 } =
        .error (.integrityError "UNIQUE constraint failed: reviews.booking_id") :=
  review_unique_per_booking exDbBookings { booking_id := 7, rating := 4 }
    exCompletedBooking (by decide) (by decide) (by decide) (by decide) (by decide)

/-- C4: `get_matched_professionals` on a nonexistent request id fails with
NotFound; on an existing request it returns only professionals whose role is
`pro`, whose active flag is true and whose service category equals the
request's category, ordered by composite match score descending. -/
theorem get_matches_filter (db : DB) (rid : Nat) :
    (findRequest db rid = none →
      get_matched_professionals db rid = .error (.notFound "Request not found")) ∧
    (∀ sr : ServiceRequest, findRequest db rid = some sr →
      ∃ ps : List ProProfile, get_matched_professionals db rid = .ok ps ∧
        (∀ p ∈ ps, p.role = "pro" ∧ p.is_active = true ∧
          p.service_category = some sr.category_id) ∧
        ps.Pairwise (fun a b => b.match_score ≤ a.match_score)) := by
  constructor
  · intro h
    simp only [get_matched_professionals, h]
  · intro sr h
    simp only [get_matched_professionals, h]
    refine ⟨_, rfl, ?_, pairwise_sortByScoreDesc _⟩
    intro p hp
    obtain ⟨pro, hpro, hbuild⟩ := List.mem_map.mp (mem_sortByScoreDesc hp)
    have hcond := (List.mem_filter.mp hpro).2
    simp only [Bool.and_eq_true, beq_iff_eq] at hcond
    obtain ⟨⟨hrole, hactive⟩, hcat⟩ := hcond
    rw [← hbuild]
    exact ⟨hrole, hactive, hcat⟩

/-- C4 witness: on the example store the request exists, so the match list
is well-formed; the inactive plumber and the electrician are excluded. -/
theorem get_matches_filter_witness :
    ∃ ps : List ProProfile, get_matched_professionals exDbMatch 1 = .ok ps ∧
      (∀ p ∈ ps, p.role = "pro" ∧ p.is_active = true ∧
        p.service_category = some exRequest.category_id) ∧
      ps.Pairwise (fun a b => b.match_score ≤ a.match_score) :=
  (get_matches_filter exDbMatch 1).2 exRequest (by decide)

/-- C5: every computed match score lies in [0, 100] (each sub-score is
bounded and the weights 0.40 + 0.25 + 0.20 + 0.15 sum to 1), and the
returned profile list is sorted non-increasing by match score.  The rating
hypothesis reflects the endpoint-enforced rating range 1..5 of stored
reviews. -/
theorem match_scores_bounded_and_sorted (db : DB) (rid : Nat) (sr : ServiceRequest)
    (hsr : findRequest db rid = some sr)
    (hval : ∀ r ∈ db.reviews, 1 ≤ r.rating ∧ r.rating ≤ 5) :
    ∃ ps : List ProProfile, get_matched_professionals db rid = .ok ps ∧
      (∀ p ∈ ps, 0 ≤ p.match_score ∧ p.match_score ≤ 100) ∧
      ps.Pairwise (fun a b => b.match_score ≤ a.match_score) := by
  simp only [get_matched_professionals, hsr]
  refine ⟨_, rfl, ?_, pairwise_sortByScoreDesc _⟩
  intro p hp
  obtain ⟨pro, hpro, hbuild⟩ := List.mem_map.mp (mem_sortByScoreDesc hp)
  rw [← hbuild]
  exact buildProfile_match_score_bounds db sr pro (fun r hr => (hval r hr).2)

/-- C5 witness: the example store satisfies the rating-range hypothesis and
produces a bounded, sorted match list. -/
theorem match_scores_bounded_and_sorted_witness :
    ∃ ps : List ProProfile, get_matched_professionals exDbMatch 1 = .ok ps ∧
      (∀ p ∈ ps, 0 ≤ p.match_score ∧ p.match_score ≤ 100) ∧
      ps.Pairwise (fun a b => b.match_score ≤ a.match_score) :=
  match_scores_bounded_and_sorted exDbMatch 1 exRequest (by decide) (by decide)

/-- C9: a candidate with zero reviews receives a rating sub-score of exactly
50 (the new-professional neutral default, never 0 and never an error), while
a candidate with at least one review — all stored ratings being at least 1,
as the endpoint enforces — receives (average rating / 5) × 100. -/
theorem rating_score_neutral_default (db : DB) (pid : Nat)
    (hval : ∀ r ∈ db.reviews, 1 ≤ r.rating) :
    (proReviews db pid = [] → rating_score db pid = 50) ∧
    (proReviews db pid ≠ [] →
      rating_score db pid = (avg_rating db pid / 5) * 100 ∧
      0 < avg_rating db pid) := by
  constructor
  · intro hnil
    have havg : avg_rating db pid = 0 := by
      rw [avg_rating]
      simp [hnil]
    rw [rating_score, havg, if_neg (lt_irrefl 0)]
  · intro hne
    have hlen : 0 < (proReviews db pid).length := List.length_pos.mpr hne
    have hlenq : (0 : ℚ) < ((proReviews db pid).length : ℚ) := by exact_mod_cast hlen
    have hsum : (1 : ℚ) * ((proReviews db pid).length : ℚ) ≤
        ((proReviews db pid).map (fun r => (r.rating : ℚ))).sum := by
      have := mul_length_le_list_sum
        ((proReviews db pid).map (fun r => (r.rating : ℚ))) 1 ?_
      · simpa using this
      · intro x hx
        obtain ⟨r, hr, hrx⟩ := List.mem_map.mp hx
        have h1 : 1 ≤ r.rating := hval r (List.mem_filter.mp hr).1
        rw [← hrx]
        exact_mod_cast h1
    have hpos : 0 < avg_rating db pid := by
      rw [avg_rating]
      rw [if_neg (Nat.pos_iff_ne_zero.mp hlen)]
      apply div_pos _ hlenq
      linarith
    exact ⟨by rw [rating_score, if_pos hpos], hpos⟩

/-- C9 witness: in the negotiation store the professional has no reviews and
scores the neutral 50; in the matching store the same professional has one
five-star review and scores by the average formula. -/
theorem rating_score_neutral_default_witness :
    rating_score exDb 20 = 50 ∧
    (rating_score exDbMatch 20 = (avg_rating exDbMatch 20 / 5) * 100 ∧
      0 < avg_rating exDbMatch 20) :=
  ⟨(rating_score_neutral_default exDb 20 (by decide)).1 (by decide),
   (rating_score_neutral_default exDbMatch 20 (by decide)).2 (by decide)⟩
